import Mathlib

/-!
# Verification of the RTD_Calibration propagation engine

Shallow embedding of the multi-hop calibration-propagation engine of
`RTD_Calibration` (files `src/utils/math_utils.py`,
`src/utils/calibration_utils.py`, `src/tree_entry.py`, `src/tree.py`,
`src/calibration_network.py`), together with theorems settling the
spec claims about it.

Modelling conventions:
* Python floats are modelled as `ℚ`; the only irrational operation the
  engine performs is `math.sqrt` / `np.sqrt`, which is applied once at
  the outer boundary of each computation, so every function is written
  as a computable `ℚ`-valued core (suffix `Sq` carries the *squared*
  error) plus a thin `Real.sqrt` wrapper.
* Python dicts keyed by sensor id are association lists
  (`List (Int × _)`, looked up with `assocLookup`); a pandas cell that
  is missing or NaN is `none`.
* Sensor ids are `Int`, set ids are `ℚ` (the source uses float set ids
  such as `3.0`).
-/

namespace RTDCalib

/-- Lookup in an association list, models a Python dict access
(`d[k]` guarded by `k in d`, or `d.get(k)`). -/
def assocLookup {α β : Type} [DecidableEq α] (k : α) : List (α × β) → Option β
  | [] => none
  | (k', v) :: rest => if k' = k then some v else assocLookup k rest

/-- Lookup in an association list with a default, models Python's
`dict.get(k, default)`. -/
def dictGetD (d : List (Int × ℚ)) (k : Int) (dflt : ℚ) : ℚ :=
  (assocLookup k d).getD dflt

/-! ## `src/utils/math_utils.py` -/

/-- The squared value of `math_utils.propagate_error`: the sum
`sum(e**2 for e in errors if e is not None)`.  An empty argument list
gives `0.0` exactly as the early return in the source does. -/
def propagateErrorSq (errors : List (Option ℚ)) : ℚ :=
  ((errors.filterMap id).map (fun e => e ^ 2)).sum

/-- Model of `math_utils.propagate_error`: `sqrt(sum(e**2 for e in errors if e
is not None))`; a `None` error is silently skipped by the generator
filter, not rejected. -/
noncomputable def propagate_error (errors : List (Option ℚ)) : ℝ :=
  Real.sqrt (propagateErrorSq errors)

/-! ## `src/utils/calibration_utils.py`: `weighted_average_paths` -/

/-- Model of `errors_safe = np.where(errors == 0, 1e-10, errors)`.  The
per-path errors reaching `weighted_average_paths` are the square roots
produced by `propagate_error`, hence real numbers here. -/
noncomputable def errorsSafe (errors : List ℝ) : List ℝ :=
  errors.map (fun e => if e = 0 then 1 / 10 ^ 10 else e)

/-- Model of `weights = 1.0 / (errors_safe ** 2)`. -/
noncomputable def pathWeights (errors : List ℝ) : List ℝ :=
  (errorsSafe errors).map (fun e => 1 / e ^ 2)

/-- Model of `calibration_utils.weighted_average_paths`.  Input tuples are
`(offset, error, path_details)`; the function only reads `p[0]` and
`p[1]`, so the third component is left polymorphic.  Branches of the
source: no paths → `(None, None)`; one path → pass-through; otherwise
the inverse-variance weighted mean `Σ(w·x)/Σw` with propagated error
`1/sqrt(Σw)`. -/
noncomputable def weighted_average_paths {α : Type} (paths : List (ℚ × ℝ × α)) :
    Option ℝ × Option ℝ :=
  match paths with
  | [] => (none, none)
  | [p] => (some ((p.1 : ℚ) : ℝ), some p.2.1)
  | _ =>
    let offsets : List ℝ := paths.map (fun p => ((p.1 : ℚ) : ℝ))
    let errors := paths.map (fun p => p.2.1)
    let weights := pathWeights errors
    (some ((List.zipWith (fun w x => w * x) weights offsets).sum / weights.sum),
     some (1 / Real.sqrt weights.sum))

/-- The spec's own formula for the combined offset of §4.4, stated
independently of the source: `Σ(weight_i·offset_i) / Σ(weight_i)` with
`weight_i = 1/error_i²` and an exact-zero error replaced by the small
positive epsilon.  Used to compare the source function against the
spec's words. -/
noncomputable def specCombinedOffset (pairs : List (ℝ × ℝ)) : ℝ :=
  (pairs.map (fun p => (1 / (if p.2 = 0 then 1 / 10 ^ 10 else p.2) ^ 2) * p.1)).sum /
    (pairs.map (fun p => 1 / (if p.2 = 0 then 1 / 10 ^ 10 else p.2) ^ 2)).sum

/-- The spec's combined weight sum `Σ weight_i`; the spec's combined
error is `1/sqrt` of it. -/
noncomputable def specWeightSum (pairs : List (ℝ × ℝ)) : ℝ :=
  (pairs.map (fun p => 1 / (if p.2 = 0 then 1 / 10 ^ 10 else p.2) ^ 2)).sum

/-! ## `src/tree_entry.py`: `TreeEntry` and its `CalibSet` payload -/

/-- Fields of `calibset.py`'s `CalibSet` that the propagation engine
reads: the internal reference sensor id and the per-sensor mean/std
offset dicts. -/
structure CalibSet where
  reference_id : Int
  mean_offsets : List (Int × ℚ)
  std_offsets : List (Int × ℚ)
deriving DecidableEq

/-- Model of the `tree_entry.py` dataclass `TreeEntry` (the
parent/children back-references are unused by the functions verified
here and omitted).  `offsets_to_raised` is the nested dict
`{raised_id: {sensor_id: (offset, error)}}`. -/
structure TreeEntry where
  set_number : ℚ
  calibset : CalibSet
  round : Int
  sensors : List Int
  raised_sensors : List Int
  discarded_sensors : List Int
  offsets_to_raised : List (Int × List (Int × (ℚ × ℚ)))
deriving DecidableEq

/-- Model of `TreeEntry.get_offset_to_raised`: `None` when the raised id
has no dict, otherwise `dict.get(sensor_id)`. -/
def TreeEntry.get_offset_to_raised (e : TreeEntry) (sensor_id raised_id : Int) :
    Option (ℚ × ℚ) :=
  match assocLookup raised_id e.offsets_to_raised with
  | none => none
  | some d => assocLookup sensor_id d

/-- Model of `TreeEntry.is_sensor_discarded`. -/
def TreeEntry.is_sensor_discarded (e : TreeEntry) (sensor_id : Int) : Bool :=
  decide (sensor_id ∈ e.discarded_sensors)

/-- Model of `TreeEntry.get_raised_for_sensor`: if the sensor is itself
raised, only the *other* raised sensors of the set; otherwise all of
them. -/
def TreeEntry.get_raised_for_sensor (e : TreeEntry) (sensor_id : Int) : List Int :=
  if sensor_id ∈ e.raised_sensors then
    e.raised_sensors.filter (fun r => decide (r ≠ sensor_id))
  else
    e.raised_sensors

/-- Modelled from the spec: the `Tree` container object consumed by
`calibration_utils.py` and built by `tree_utils.create_tree_from_calibsets`
(methods `get_root`, `get_entry`, `get_entries_by_round`, field
`entries`) is not among the source files — only its callers are.  Per
§2/§4.1 of the spec it is the store of all validated `TreeEntry` nodes
together with the resolved root entry. -/
structure TreeC where
  entries : List TreeEntry
  root : Option TreeEntry
deriving DecidableEq

/-- Modelled from the spec: `tree.get_root()` returns the root entry of
the hierarchy, `None` when no root was established. -/
def TreeC.get_root (t : TreeC) : Option TreeEntry :=
  t.root

/-- Modelled from the spec: `tree.get_entries_by_round(r)` returns the
stored entries whose round is `r`. -/
def TreeC.get_entries_by_round (t : TreeC) (r : Int) : List TreeEntry :=
  t.entries.filter (fun e => e.round = r)

/-! ## `src/utils/calibration_utils.py`: path enumeration -/

/-- Final-hop lookup of `find_all_paths_to_reference` inside the
round-3 entry: `(0.0, 0.0)` when the incoming bridge *is* the reference
sensor; otherwise the `mean_offsets` entry with
`std_offsets.get(raised_r2, 0.0)` as its error; `None` (branch dies)
when the bridge has no mean offset. -/
def step3Lookup (entry_r3 : TreeEntry) (raised_r2 : Int) : Option (ℚ × ℚ) :=
  if raised_r2 = entry_r3.calibset.reference_id then some (0, 0)
  else
    match assocLookup raised_r2 entry_r3.calibset.mean_offsets with
    | some o => some (o, dictGetD entry_r3.calibset.std_offsets raised_r2 0)
    | none => none

/-- Model of `calibration_utils.find_all_paths_to_reference` carrying the
*squared* total error (the source stores
`propagate_error(error_1, error_2, error_3)`, the square root of this
component).  The nesting of `flatMap` mirrors the source's nested
`for`/`continue` loops; an empty raised list yields `[]` just as the
early-return does. -/
def findAllPathsSq (sensor_id : Int) (start_entry : TreeEntry) (tree : TreeC) :
    List (ℚ × ℚ × List (TreeEntry × Int)) :=
  match tree.get_root with
  | none => []
  | some _ =>
    if start_entry.is_sensor_discarded sensor_id then []
    else
      (start_entry.get_raised_for_sensor sensor_id).flatMap (fun raised_r1 =>
        match start_entry.get_offset_to_raised sensor_id raised_r1 with
        | none => []
        | some (offset_1, error_1) =>
          (tree.get_entries_by_round 2).flatMap (fun entry_r2 =>
            if raised_r1 ∈ entry_r2.sensors then
              (entry_r2.get_raised_for_sensor raised_r1).flatMap (fun raised_r2 =>
                match entry_r2.get_offset_to_raised raised_r1 raised_r2 with
                | none => []
                | some (offset_2, error_2) =>
                  (tree.get_entries_by_round 3).flatMap (fun entry_r3 =>
                    if raised_r2 ∈ entry_r3.sensors then
                      match step3Lookup entry_r3 raised_r2 with
                      | none => []
                      | some (offset_3, error_3) =>
                        [(offset_1 + offset_2 + offset_3,
                          error_1 ^ 2 + error_2 ^ 2 + error_3 ^ 2,
                          [(start_entry, raised_r1), (entry_r2, raised_r2),
                           (entry_r3, entry_r3.calibset.reference_id)])]
                    else []))
            else []))

/-- Model of `calibration_utils.find_all_paths_to_reference` proper:
each enumerated path is `(total_offset, total_error, path_details)`
with `total_error = propagate_error(error_1, error_2, error_3)`. -/
noncomputable def find_all_paths_to_reference (sensor_id : Int) (start_entry : TreeEntry)
    (tree : TreeC) : List (ℚ × ℝ × List (TreeEntry × Int)) :=
  (findAllPathsSq sensor_id start_entry tree).map (fun p => (p.1, Real.sqrt p.2.1, p.2.2))

/-! ## `src/utils/calibration_utils.py`: `calibrate_tree` -/

/-- Status column values of the `calibrate_tree` result table. -/
inductive Status where
  | Calculado
  | SinConexion
  | Descartado
  | Referencia
deriving DecidableEq

/-- One row of the `calibrate_tree` result table
`(Sensor, Set, Round, Constante_Calibracion_K, Error_K, N_Paths, Status)`;
`none` in `constant`/`error` is the source's `np.nan`. -/
structure Row where
  sensor : Int
  set_id : ℚ
  round : Int
  constant : Option ℝ
  error : Option ℝ
  n_paths : Nat
  status : Status

/-- Rows appended by one iteration of `calibrate_tree`'s inner sensor
loop: a `Descartado` row for discarded sensors, a `Sin conexión` row
when no path was found, and a `Calculado` row from the weighted average
otherwise.  The source guards the last append with
`if offset is not None`, appending nothing when the combined offset is
`None` — that guard is kept verbatim (and proved unreachable for
non-empty path lists in the theorems below). -/
noncomputable def sensorRows (tree : TreeC) (entry : TreeEntry) (sensor_id : Int) :
    List Row :=
  if entry.is_sensor_discarded sensor_id then
    [⟨sensor_id, entry.set_number, entry.round, none, none, 0, Status.Descartado⟩]
  else
    let paths := find_all_paths_to_reference sensor_id entry tree
    if paths.isEmpty then
      [⟨sensor_id, entry.set_number, entry.round, none, none, 0, Status.SinConexion⟩]
    else
      match weighted_average_paths paths with
      | (some offset, error) =>
        [⟨sensor_id, entry.set_number, entry.round, some offset, error,
          paths.length, Status.Calculado⟩]
      | (none, _) => []

/-- Model of `calibration_utils.calibrate_tree` as the list of result
records it accumulates: no root → empty output (the warning path);
otherwise one pass over the round-1 entries sorted by set number, each
sensor contributing its `sensorRows`, followed by the absolute-reference
row `(constant=0, error=0, status=Referencia)`.  The trailing
`DataFrame.sort_values(['Set','Sensor'])` of the source only permutes
these records and is not modelled, nor are the print statements and the
CSV export. -/
noncomputable def calibrate_tree (tree : TreeC) (reference_sensor_id : Option Int) :
    List Row :=
  match tree.get_root with
  | none => []
  | some root =>
    let refId := reference_sensor_id.getD root.calibset.reference_id
    ((tree.get_entries_by_round 1).mergeSort
        (fun a b => decide (a.set_number ≤ b.set_number))).flatMap
      (fun entry => entry.sensors.flatMap (fun s => sensorRows tree entry s)) ++
      [⟨refId, root.set_number, root.round, some 0, some 0, 0, Status.Referencia⟩]

/-! ## `src/tree.py`: the config-driven `Tree` class -/

/-- Per-set block of `config.yml`'s `sensors.sets` consumed by
`tree.py`: round (absent modelled as `none`), sensor list, raised list,
discarded list.  `config.get(float(set_id), {})` with the empty-dict
default is modelled by `cfgOf` below. -/
structure SetCfg where
  round : Option Int
  sensors : List Int
  raised : List Int
  discarded : List Int
deriving DecidableEq

/-- A pandas offset/error matrix of `tree.py`'s `Set` objects: a cell
keyed by `(row, column)` sensor ids; a stored `none` is a NaN cell, an
absent key a missing label. -/
abbrev PdTable := List ((Int × Int) × Option ℚ)

/-- The two matrices `calibration_constants` / `calibration_errors` of a
processed `Set` object (`None` when never computed). -/
structure SetObj where
  calibration_constants : Option PdTable
  calibration_errors : Option PdTable
deriving DecidableEq

/-- State of a `tree.py` `Tree`: the `sets_dict` passed to `__init__`
and the `config['sensors']['sets']` mapping. -/
structure TreePy where
  sets : List (ℚ × SetObj)
  config : List (ℚ × SetCfg)
deriving DecidableEq

/-- Model of `sets_config.get(float(set_id), {})`: the per-set config
block, empty when the set id is not configured. -/
def cfgOf (tp : TreePy) (set_id : ℚ) : SetCfg :=
  (assocLookup set_id tp.config).getD ⟨none, [], [], []⟩

/-- Model of `Tree.get_raised_sensors`: the `raised` list from config
(`[]` when absent). -/
def get_raised_sensors (tp : TreePy) (set_id : ℚ) : List Int :=
  (cfgOf tp set_id).raised

/-- Model of `Tree.get_offset_within_set`: `(None, None)` when the set
is unknown, a matrix is missing, a label is missing (`KeyError` /
membership test) or either cell is NaN; otherwise the `(offset, error)`
cells.  The source always returns both components together, so the pair
of options is collapsed to an optional pair. -/
def get_offset_within_set (tp : TreePy) (set_id : ℚ) (sensor_from sensor_to : Int) :
    Option (ℚ × ℚ) :=
  match assocLookup set_id tp.sets with
  | none => none
  | some set_obj =>
    match set_obj.calibration_constants, set_obj.calibration_errors with
    | some constants, some errors =>
      match assocLookup (sensor_from, sensor_to) constants,
            assocLookup (sensor_from, sensor_to) errors with
      | some (some offset), some (some error) => some (offset, error)
      | _, _ => none
    | _, _ => none

/-- Model of the `sets_by_round` classification of `Tree.__init__`: the
set ids of `sets_dict` whose configured round (default 1) equals `r`,
sorted.  (The source keeps dict-insertion order then sorts each round's
list; only rounds 1–3 are retained there, and this model is only
applied at those rounds.) -/
def sets_by_round (tp : TreePy) (r : Int) : List ℚ :=
  (((tp.sets.map Prod.fst).filter
      (fun sid => decide ((cfgOf tp sid).round.getD 1 = r))).mergeSort
    (fun a b => decide (a ≤ b)))

/-- Per-path detail record of `Tree._explore_all_paths`. -/
structure PathInfo where
  raised_r1 : Int
  set_r2 : ℚ
  bridge_r2_r3 : Int
  offset_1 : ℚ
  error_1 : ℚ
  offset_2 : ℚ
  error_2 : ℚ
  offset_3 : ℚ
  error_3 : ℚ
deriving DecidableEq

/-- Model of `Tree._explore_all_paths` with squared total error (the
source stores `propagate_error(error_1, error_2, error_3)`).  Branches
mirror the source: step 1 dies on an undefined sensor→raised offset
(the `error_1 = 0.0` substitution there is unreachable because
`get_offset_within_set` returns both components or neither); step 2
takes the *first* round-2 set containing the raised sensor; step 3
iterates every raised of that set that is also a round-3 sensor, using
`(0.0, 0.0)` when it *is* the current raised sensor; step 4 uses
`(0.0, 0.0)` when the bridge is the reference sensor. -/
def exploreAllPathsSq (tp : TreePy) (sensor : Int) (set_r1 : ℚ) (raised_r1 : List Int)
    (reference_sensor : Int) (reference_set : ℚ) : List (ℚ × ℚ × PathInfo) :=
  let r2_sets := sets_by_round tp 2
  let r3_sensors := (cfgOf tp reference_set).sensors
  raised_r1.flatMap (fun raised_local =>
    match get_offset_within_set tp set_r1 sensor raised_local with
    | none => []
    | some (offset_1, error_1) =>
      match r2_sets.find?
          (fun r2_id => decide (raised_local ∈ (cfgOf tp r2_id).sensors)) with
      | none => []
      | some set_r2 =>
        ((cfgOf tp set_r2).raised).flatMap (fun bridge_r2_r3 =>
          if bridge_r2_r3 ∈ r3_sensors then
            match (if raised_local = bridge_r2_r3 then some ((0 : ℚ), (0 : ℚ))
                   else get_offset_within_set tp set_r2 raised_local bridge_r2_r3) with
            | none => []
            | some (offset_2, error_2) =>
              match (if bridge_r2_r3 = reference_sensor then some ((0 : ℚ), (0 : ℚ))
                     else get_offset_within_set tp reference_set bridge_r2_r3
                            reference_sensor) with
              | none => []
              | some (offset_3, error_3) =>
                [(offset_1 + offset_2 + offset_3,
                  error_1 ^ 2 + error_2 ^ 2 + error_3 ^ 2,
                  ⟨raised_local, set_r2, bridge_r2_r3, offset_1, error_1,
                   offset_2, error_2, offset_3, error_3⟩)]
          else []))

/-- Bridge sensors between two consecutive sets of a path, as computed
inside `Tree._calculate_offset_through_path`:
`raised_current & (raised_next | next_sensors)`.  Python iterates this
as a `set` (unspecified order); the model keeps the raised-list order
of the current set, matching `list(bridge_sensors)[0]` up to that
ordering choice. -/
def bridgeSensors (tp : TreePy) (set_current set_next : ℚ) : List Int :=
  (get_raised_sensors tp set_current).filter (fun b =>
    decide (b ∈ get_raised_sensors tp set_next) ||
      decide (b ∈ (cfgOf tp set_next).sensors))

/-- The accumulating loop of `Tree._calculate_offset_through_path` with
squared error: each hop within `path[i]` goes from the current sensor to
the first bridge toward `path[i+1]`; the final hop inside the last set
reaches `sensor_to`.  Any undefined hop offset or missing bridge returns
`None` for the whole path. -/
def pathChainSq (tp : TreePy) (sensor_to : Int) : Int → List ℚ → Option (ℚ × ℚ)
  | current_sensor, [final_set] =>
    (get_offset_within_set tp final_set current_sensor sensor_to).map
      (fun p => (p.1, p.2 ^ 2))
  | current_sensor, set_current :: set_next :: rest =>
    match (bridgeSensors tp set_current set_next).head? with
    | none => none
    | some bridge =>
      match get_offset_within_set tp set_current current_sensor bridge with
      | none => none
      | some (offset_1, error_1) =>
        (pathChainSq tp sensor_to bridge (set_next :: rest)).map
          (fun p => (offset_1 + p.1, error_1 ^ 2 + p.2))
  | _, [] => none

/-- Model of `Tree._calculate_offset_through_path`: a path of fewer than
two sets is a direct within-set lookup (the source would fault on an
empty path; its callers never pass one, modelled as `None`); otherwise
the accumulated sum of hop offsets with `sqrt` of the accumulated
squared errors. -/
noncomputable def calculate_offset_through_path (tp : TreePy) (sensor_from sensor_to : Int)
    (path : List ℚ) : Option (ℚ × ℝ) :=
  if path.length < 2 then
    match path.head? with
    | none => none
    | some s =>
      (get_offset_within_set tp s sensor_from sensor_to).map
        (fun p => (p.1, ((p.2 : ℚ) : ℝ)))
  else
    (pathChainSq tp sensor_to sensor_from path).map (fun p => (p.1, Real.sqrt p.2))

/-- Specification predicate for `pathChainSq`: `hops` are exactly the
per-hop `(offset, error)` values the loop of
`_calculate_offset_through_path` reads along `path`, each one a
*defined* `get_offset_within_set` lookup. -/
def ChainHops (tp : TreePy) (sensor_to : Int) :
    Int → List ℚ → List (ℚ × ℚ) → Prop
  | current_sensor, [final_set], [h] =>
    get_offset_within_set tp final_set current_sensor sensor_to = some h
  | current_sensor, set_current :: set_next :: rest, h :: hs =>
    ∃ bridge, (bridgeSensors tp set_current set_next).head? = some bridge ∧
      get_offset_within_set tp set_current current_sensor bridge = some h ∧
      ChainHops tp sensor_to bridge (set_next :: rest) hs
  | _, _, _ => False

/-! ## `src/calibration_network.py`: `CalibrationNetwork` -/

/-- A pandas DataFrame as used by `calibration_network.py`: row labels,
column labels, and a total cell function (a DataFrame holds a value at
every (row, column) pair of its labels; `.loc` raises `KeyError`
exactly when a label is absent).  String-vs-int label normalization of
the source collapses to plain `Int` ids, since `str` is injective on
ints. -/
structure NetTable where
  index : List Int
  columns : List Int
  cell : Int → Int → ℚ

/-- Model of `df.loc[i, j]`: the cell when both labels exist, `none`
(KeyError) otherwise. -/
def NetTable.loc (t : NetTable) (i j : Int) : Option ℚ :=
  if i ∈ t.index ∧ j ∈ t.columns then some (t.cell i j) else none

/-- Model of the local helper `safe_get` inside
`CalibrationNetwork.compute_offset_to_top_reference`: a `None` frame
gives `0.0`; a direct lookup, else the negated transposed lookup, else
a warning and `0.0`. -/
def safe_get (df : Option NetTable) (i j : Int) : ℚ :=
  match df with
  | none => 0
  | some t =>
    match t.loc i j with
    | some v => v
    | none =>
      match t.loc j i with
      | some v => -v
      | none => 0

/-- The matrices of one set held by a `CalibrationNetwork`. -/
structure NetSet where
  calibration_constants : Option NetTable
  calibration_errors : Option NetTable

/-- State of a `CalibrationNetwork` relevant to offset computation: the
`sets` dict and the undirected `networkx` graph as an edge list with
the `sensors` bridge annotation. -/
structure Network where
  sets : List (ℚ × NetSet)
  graphEdges : List ((ℚ × ℚ) × List Int)

/-- Exceptions `compute_offset_between` can raise. -/
inductive NetError where
  | valueError
  | runtimeError
deriving DecidableEq

/-- Model of `CalibrationNetwork.find_sensor_set`: the first set whose
`calibration_constants` index contains the sensor id. -/
def find_sensor_set (net : Network) (sensor_id : Int) : Option ℚ :=
  (net.sets.find? (fun s =>
    match s.2.calibration_constants with
    | none => false
    | some t => decide (sensor_id ∈ t.index))).map Prod.fst

/-- Neighbors of a set in the undirected graph, in edge-list order. -/
def neighbors (net : Network) (s : ℚ) : List ℚ :=
  net.graphEdges.filterMap (fun e =>
    if e.1.1 = s then some e.1.2 else if e.1.2 = s then some e.1.1 else none)

/-- Breadth-first search with explicit fuel, modelling
`nx.shortest_path` (an unweighted shortest path is a BFS path). -/
def bfsPath (net : Network) (target : ℚ) :
    Nat → List (ℚ × List ℚ) → List ℚ → Option (List ℚ)
  | 0, _, _ => none
  | _ + 1, [], _ => none
  | fuel + 1, (s, path) :: queue, visited =>
    if s = target then some path.reverse
    else
      let fresh := (neighbors net s).filter (fun n => decide (n ∉ visited))
      bfsPath net target fuel (queue ++ fresh.map (fun n => (n, n :: path)))
        (visited ++ fresh)

/-- Model of `CalibrationNetwork.find_path_between_sets`: shortest path
between two sets, `[]` when `networkx` raises `NetworkXNoPath`.  The
fuel bounds the number of BFS dequeues, which never exceeds one plus
the number of enqueues, itself bounded by the total neighbor-list
length over all distinct sets. -/
def find_path_between_sets (net : Network) (set_a set_b : ℚ) : List ℚ :=
  (bfsPath net set_b ((net.sets.length + net.graphEdges.length + 1) * 2 + 2 *
      net.graphEdges.length * net.sets.length) [(set_a, [set_a])] [set_a]).getD []

/-- Model of `self.graph[a][b].get('sensors', [])`: the bridge-sensor
annotation of the undirected edge between `a` and `b`. -/
def edgeSensors (net : Network) (a b : ℚ) : List Int :=
  match net.graphEdges.find? (fun e =>
      decide ((e.1.1 = a ∧ e.1.2 = b) ∨ (e.1.1 = b ∧ e.1.2 = a))) with
  | none => []
  | some e => e.2

/-- One hop of the cross-set loop of `compute_offset_between`: the
`(dA, eA)` contribution from `current sensor → bridge` inside set `a`.
`dA`/`eA` start at `0.0` and are only overwritten when the identity
check or the membership check of the source fires, so an absent label
leaves the zero default in place. -/
def netHop (net : Network) (sensor_from sensor_bridge : Int) (a : ℚ) : ℚ × ℚ :=
  if sensor_from = sensor_bridge then (0, 0)
  else
    match (assocLookup a net.sets).bind (fun s => s.calibration_constants) with
    | none => (0, 0)
    | some ct =>
      if sensor_from ∈ ct.index ∧ sensor_bridge ∈ ct.columns then
        (ct.cell sensor_from sensor_bridge,
         match (assocLookup a net.sets).bind (fun s => s.calibration_errors) with
         | none => 0
         | some et => (et.loc sensor_from sensor_bridge).getD 0)
      else (0, 0)

/-- The cross-set accumulation loop of `compute_offset_between` over
consecutive set pairs of the path, with squared error: each pair
contributes `dA + dB` and `eA² + eB²` through its first edge bridge
sensor; a pair without bridge sensors raises `RuntimeError`. -/
def crossStepsSq (net : Network) (sensor_i sensor_j : Int) :
    List (ℚ × ℚ) → Except NetError (ℚ × ℚ)
  | [] => Except.ok (0, 0)
  | (a, b) :: rest =>
    match edgeSensors net a b with
    | [] => Except.error NetError.runtimeError
    | sensor_bridge :: _ =>
      let hopA := netHop net sensor_i sensor_bridge a
      let hopB :=
        if sensor_bridge = sensor_j then ((0 : ℚ), (0 : ℚ))
        else
          match (assocLookup b net.sets).bind (fun s => s.calibration_constants) with
          | none => (0, 0)
          | some ct =>
            if sensor_j ∈ ct.columns ∧ sensor_bridge ∈ ct.index then
              (ct.cell sensor_bridge sensor_j,
               match (assocLookup b net.sets).bind (fun s => s.calibration_errors) with
               | none => 0
               | some et => (et.loc sensor_bridge sensor_j).getD 0)
            else (0, 0)
      match crossStepsSq net sensor_i sensor_j rest with
      | Except.error err => Except.error err
      | Except.ok (o, e2) =>
        Except.ok (hopA.1 + hopB.1 + o, hopA.2 ^ 2 + hopB.2 ^ 2 + e2)

/-- Model of `CalibrationNetwork.compute_offset_between`.  Identical ids
(`str(sensor_i) == str(sensor_j)`) short-circuit to `(0.0, 0.0)` before
any set lookup; a sensor in no set raises `ValueError`; the same-set
branch tries the direct cells, then the negated transposed cells, then
falls back to `(0.0, 0.0)` with a warning; across sets, the bridge
chain is accumulated and the error square-rooted.  (A set object
whose constants matrix is `None` would raise `AttributeError` in the
same-set branch; `find_sensor_set` never selects one, and the model
maps that unreachable case to `RuntimeError`.) -/
noncomputable def compute_offset_between (net : Network) (sensor_i sensor_j : Int) :
    Except NetError (ℚ × ℝ) :=
  if sensor_i = sensor_j then Except.ok (0, 0)
  else
    match find_sensor_set net sensor_i, find_sensor_set net sensor_j with
    | some set_i, some set_j =>
      if set_i = set_j then
        match (assocLookup set_i net.sets).map
            (fun s => (s.calibration_constants, s.calibration_errors)) with
        | some (some ct, some et) =>
          (match ct.loc sensor_i sensor_j, et.loc sensor_i sensor_j with
           | some d, some e => Except.ok (d, ((e : ℚ) : ℝ))
           | _, _ =>
             match ct.loc sensor_j sensor_i, et.loc sensor_j sensor_i with
             | some d, some e => Except.ok (-d, ((e : ℚ) : ℝ))
             | _, _ => Except.ok (0, 0))
        | _ => Except.error NetError.runtimeError
      else
        match find_path_between_sets net set_i set_j with
        | [] => Except.error NetError.runtimeError
        | path =>
          match crossStepsSq net sensor_i sensor_j (path.zip path.tail) with
          | Except.error err => Except.error err
          | Except.ok (o, e2) => Except.ok (o, Real.sqrt e2)
    | _, _ => Except.error NetError.valueError

/-! ## Concrete instances used by counterexamples and witnesses -/

/-- Round-1 entry of the sample tree: sensors 10 and 11 (11 discarded),
one raised sensor 20, and the offset of sensor 10 toward it. -/
def e1 : TreeEntry := ⟨1, ⟨100, [], []⟩, 1, [10, 11], [20], [11], [(20, [(10, (1, 1/10))])]⟩

/-- Round-2 entry of the sample tree: contains the round-1 bridge 20 and
raises sensor 21. -/
def e2 : TreeEntry := ⟨2, ⟨101, [], []⟩, 2, [20, 21], [21], [], [(21, [(20, (2, 1/10))])]⟩

/-- Root entry of the sample tree: reference sensor 30; bridge 21 has a
mean offset but *no* std entry. -/
def e3 : TreeEntry := ⟨3, ⟨30, [(21, 5)], []⟩, 3, [21, 30], [], [], []⟩

/-- Sample three-round tree. -/
def tree1 : TreeC := ⟨[e1, e2, e3], some e3⟩

/-- Sample `tree.py` state in which set 1's raised sensor 20 is itself
the raised sensor of set 2 bridging into round 3. -/
def tp7 : TreePy :=
  ⟨[(1, ⟨some [((10, 20), some 1)], some [((10, 20), some (1/10))]⟩),
    (2, ⟨some [], some []⟩),
    (3, ⟨some [((20, 30), some 2)], some [((20, 30), some (1/10))]⟩)],
   [(1, ⟨some 1, [10, 20], [20], []⟩),
    (2, ⟨some 2, [20], [20], []⟩),
    (3, ⟨some 3, [20, 30], [], []⟩)]⟩

/-- Sample matrix without the (3, 4) or (4, 3) labels. -/
def nt4 : NetTable := ⟨[1], [2], fun _ _ => 5⟩

/-- Sample network whose only set indexes sensors 7 and 8 but has no
column for either, so the same-set lookup misses both ways. -/
def net4 : Network :=
  ⟨[(1, ⟨some ⟨[7, 8], [9], fun _ _ => 1⟩, some ⟨[7, 8], [9], fun _ _ => 1⟩⟩)], []⟩

theorem pathWeights_eq_map {α : Type} (paths : List (ℚ × ℝ × α)) :
    pathWeights (paths.map (fun p => p.2.1)) =
      paths.map (fun p => 1 / (if p.2.1 = 0 then 1 / 10 ^ 10 else p.2.1) ^ 2) := by
  simp [pathWeights, errorsSafe, List.map_map, Function.comp]

theorem zipWith_weights_offsets {α : Type} (paths : List (ℚ × ℝ × α)) :
    List.zipWith (fun w x => w * x)
      (paths.map (fun p => 1 / (if p.2.1 = 0 then 1 / 10 ^ 10 else p.2.1) ^ 2))
      (paths.map (fun p => ((p.1 : ℚ) : ℝ))) =
      paths.map (fun p =>
        (1 / (if p.2.1 = 0 then 1 / 10 ^ 10 else p.2.1) ^ 2) * ((p.1 : ℚ) : ℝ)) := by
  induction paths with
  | nil => rfl
  | cons p ps ih => simp [List.zipWith, ih]

theorem weighted_average_paths_of_two_le {α : Type} (paths : List (ℚ × ℝ × α))
    (h : 2 ≤ paths.length) :
    weighted_average_paths paths =
      (some (specCombinedOffset (paths.map (fun p => (((p.1 : ℚ) : ℝ), p.2.1)))),
       some (1 / Real.sqrt (specWeightSum (paths.map (fun p => (((p.1 : ℚ) : ℝ), p.2.1)))))) := by
  match paths with
  | [] => simp at h
  | [p] => simp at h
  | a :: b :: l =>
    show (some _, some _) = _
    simp only [specCombinedOffset, specWeightSum, List.map_map]
    rw [show pathWeights ((a :: b :: l).map (fun p => p.2.1)) =
          (a :: b :: l).map (fun p => 1 / (if p.2.1 = 0 then 1 / 10 ^ 10 else p.2.1) ^ 2)
        from pathWeights_eq_map _]
    rw [zipWith_weights_offsets]
    simp [Function.comp_def]

/-- C1: for a sensor with at least two valid paths,
`weighted_average_paths` returns exactly the spec's inverse-variance
weighted combination — weights `1/error²` with an exact-zero error
replaced by the epsilon `1e-10`, combined offset `Σ(wᵢ·xᵢ)/Σwᵢ` and
combined error `1/sqrt(Σwᵢ)` — and on the spec's worked example
`(0.100, 0.010)`, `(0.120, 0.020)` it yields offset `0.104` and error
`1/sqrt(12500) ≈ 0.00894`. -/
theorem C1_weighted_combination :
    (∀ (α : Type) (paths : List (ℚ × ℝ × α)), 2 ≤ paths.length →
      weighted_average_paths paths =
        (some (specCombinedOffset (paths.map (fun p => (((p.1 : ℚ) : ℝ), p.2.1)))),
         some (1 / Real.sqrt (specWeightSum (paths.map (fun p => (((p.1 : ℚ) : ℝ), p.2.1))))))) ∧
    weighted_average_paths [((1 : ℚ)/10, ((1 : ℝ)/100), ()), ((3 : ℚ)/25, ((1 : ℝ)/50), ())] =
      (some ((13 : ℝ)/125), some (1 / Real.sqrt 12500)) ∧
    |1 / Real.sqrt 12500 - (894 : ℝ)/100000| < 1/100000 := by
  refine ⟨fun α paths h => weighted_average_paths_of_two_le paths h, ?_, ?_⟩
  · show (some _, some _) = _
    rw [Prod.mk.injEq, Option.some.injEq, Option.some.injEq]
    constructor
    · norm_num [pathWeights, errorsSafe]
    · norm_num [pathWeights, errorsSafe]
  · have hlow : (111.80 : ℝ) < Real.sqrt 12500 := by
      rw [show (12500 : ℝ) = 12500 from rfl]
      have := (Real.lt_sqrt (by norm_num : (0:ℝ) ≤ 111.80)).mpr
        (by norm_num : (111.80 : ℝ) ^ 2 < 12500)
      exact this
    have hhigh : Real.sqrt 12500 < 111.81 :=
      (Real.sqrt_lt' (by norm_num : (0:ℝ) < 111.81)).mpr (by norm_num)
    have hpos : (0 : ℝ) < Real.sqrt 12500 := by positivity
    have h1 : 1 / Real.sqrt 12500 < 1 / 111.80 := by
      apply one_div_lt_one_div_of_lt (by norm_num) hlow
    have h2 : 1 / (111.81 : ℝ) < 1 / Real.sqrt 12500 := by
      apply one_div_lt_one_div_of_lt hpos hhigh
    rw [abs_sub_lt_iff]
    constructor <;> nlinarith

/-- Witness for C1: the general statement applied to the spec's worked
example, with the length hypothesis discharged concretely. -/
theorem C1_weighted_combination_witness :
    weighted_average_paths [((1 : ℚ)/10, ((1 : ℝ)/100), ()), ((3 : ℚ)/25, ((1 : ℝ)/50), ())] =
      (some (specCombinedOffset [(((1 : ℚ)/10 : ℚ), ((1 : ℝ)/100)), (((3 : ℚ)/25 : ℚ), ((1 : ℝ)/50))]),
       some (1 / Real.sqrt (specWeightSum
         [(((1 : ℚ)/10 : ℚ), ((1 : ℝ)/100)), (((3 : ℚ)/25 : ℚ), ((1 : ℝ)/50))]))) := by
  have h := C1_weighted_combination.1 Unit
    [((1 : ℚ)/10, ((1 : ℝ)/100), ()), ((3 : ℚ)/25, ((1 : ℝ)/50), ())] (by decide)
  rw [h]
  norm_num

/-- C9: a single valid path passes through `weighted_average_paths`
unchanged — the combined output is that path's own (offset, error). -/
theorem C9_single_path_passthrough :
    ∀ (α : Type) (p : ℚ × ℝ × α),
      weighted_average_paths [p] = (some ((p.1 : ℚ) : ℝ), some p.2.1) :=
  fun _ _ => rfl

theorem mem_findAllPathsSq {sensor_id : Int} {start_entry : TreeEntry} {tree : TreeC}
    {p : ℚ × ℚ × List (TreeEntry × Int)}
    (hp : p ∈ findAllPathsSq sensor_id start_entry tree) :
    ∃ raised_r1 o1 e1 entry_r2 raised_r2 o2 e2 entry_r3 o3 e3,
      raised_r1 ∈ start_entry.get_raised_for_sensor sensor_id ∧
      start_entry.get_offset_to_raised sensor_id raised_r1 = some (o1, e1) ∧
      entry_r2 ∈ tree.get_entries_by_round 2 ∧
      raised_r1 ∈ entry_r2.sensors ∧
      raised_r2 ∈ entry_r2.get_raised_for_sensor raised_r1 ∧
      entry_r2.get_offset_to_raised raised_r1 raised_r2 = some (o2, e2) ∧
      entry_r3 ∈ tree.get_entries_by_round 3 ∧
      raised_r2 ∈ entry_r3.sensors ∧
      step3Lookup entry_r3 raised_r2 = some (o3, e3) ∧
      p = (o1 + o2 + o3, e1 ^ 2 + e2 ^ 2 + e3 ^ 2,
        [(start_entry, raised_r1), (entry_r2, raised_r2),
         (entry_r3, entry_r3.calibset.reference_id)]) := by
  unfold findAllPathsSq at hp
  cases hroot : tree.get_root with
  | none => simp only [hroot, List.not_mem_nil] at hp
  | some root =>
  simp only [hroot] at hp
  by_cases hdisc : start_entry.is_sensor_discarded sensor_id
  · simp [hdisc] at hp
  · simp only [if_neg hdisc, List.mem_flatMap] at hp
    obtain ⟨raised_r1, hr1, hp⟩ := hp
    cases h1 : start_entry.get_offset_to_raised sensor_id raised_r1 with
    | none => simp only [h1, List.not_mem_nil] at hp
    | some oe1 =>
    obtain ⟨o1, e1⟩ := oe1
    simp only [h1, List.mem_flatMap] at hp
    obtain ⟨entry_r2, hm2, hp⟩ := hp
    by_cases hs2 : raised_r1 ∈ entry_r2.sensors
    · simp only [if_pos hs2, List.mem_flatMap] at hp
      obtain ⟨raised_r2, hr2, hp⟩ := hp
      cases h2 : entry_r2.get_offset_to_raised raised_r1 raised_r2 with
      | none => simp only [h2, List.not_mem_nil] at hp
      | some oe2 =>
      obtain ⟨o2, e2⟩ := oe2
      simp only [h2, List.mem_flatMap] at hp
      obtain ⟨entry_r3, hm3, hp⟩ := hp
      by_cases hs3 : raised_r2 ∈ entry_r3.sensors
      · simp only [if_pos hs3] at hp
        cases h3 : step3Lookup entry_r3 raised_r2 with
        | none => simp only [h3, List.not_mem_nil] at hp
        | some oe3 =>
        obtain ⟨o3, e3⟩ := oe3
        simp only [h3, List.mem_singleton] at hp
        exact ⟨raised_r1, o1, e1, entry_r2, raised_r2, o2, e2, entry_r3, o3, e3,
          hr1, h1, hm2, hs2, hr2, h2, hm3, hs3, h3, hp⟩
      · simp only [if_neg hs3, List.not_mem_nil] at hp
    · simp only [if_neg hs2, List.not_mem_nil] at hp

theorem mem_get_raised_for_sensor_ne {e : TreeEntry} {s b : Int}
    (h : b ∈ e.get_raised_for_sensor s) : b ≠ s := by
  unfold TreeEntry.get_raised_for_sensor at h
  by_cases hs : s ∈ e.raised_sensors
  · rw [if_pos hs] at h
    simpa using (List.mem_filter.mp h).2
  · rw [if_neg hs] at h
    intro hbs
    exact hs (hbs ▸ h)

theorem pathChainSq_spec (tp : TreePy) (sensor_to : Int) :
    ∀ (path : List ℚ) (cur : Int) (o q : ℚ),
      pathChainSq tp sensor_to cur path = some (o, q) →
      ∃ hops : List (ℚ × ℚ), ChainHops tp sensor_to cur path hops ∧
        o = (hops.map Prod.fst).sum ∧ q = (hops.map (fun h => h.2 ^ 2)).sum := by
  intro path
  induction path with
  | nil => intro cur o q h; simp [pathChainSq] at h
  | cons s rest ih =>
    intro cur o q h
    cases rest with
    | nil =>
      cases hg : get_offset_within_set tp s cur sensor_to with
      | none => simp [pathChainSq, hg] at h
      | some oe =>
        obtain ⟨ho, he⟩ := oe
        simp only [pathChainSq, hg, Option.map_some', Option.some.injEq, Prod.mk.injEq] at h
        exact ⟨[(ho, he)], by simp [ChainHops, hg], by simp [h.1.symm], by simp [h.2.symm]⟩
    | cons s2 rest2 =>
      cases hb : (bridgeSensors tp s s2).head? with
      | none => simp [pathChainSq, hb] at h
      | some bridge =>
        cases hg : get_offset_within_set tp s cur bridge with
        | none => simp [pathChainSq, hb, hg] at h
        | some oe =>
          obtain ⟨o1, er1⟩ := oe
          cases hrec : pathChainSq tp sensor_to bridge (s2 :: rest2) with
          | none => simp [pathChainSq, hb, hg, hrec] at h
          | some p2 =>
            obtain ⟨o2, q2⟩ := p2
            obtain ⟨hops, hch, ho2, hq2⟩ := ih bridge o2 q2 hrec
            simp only [pathChainSq, hb, hg, hrec, Option.map_some', Option.some.injEq,
              Prod.mk.injEq] at h
            refine ⟨(o1, er1) :: hops, ?_, ?_, ?_⟩
            · simp only [ChainHops]
              exact ⟨bridge, hb, hg, hch⟩
            · simp [← h.1, ho2]
            · simp [← h.2, hq2]

/-- C2: every enumerated path with all per-hop (offset, error) values
defined chains to `total_offset = Σ offset_i` (plain signed sum) and
`total_error = sqrt(Σ error_i²)` (root-sum-of-squares): first for the
three-hop paths of `find_all_paths_to_reference` (whose error is
exactly `propagate_error` of the hop errors), then for arbitrary-length
paths of `Tree._calculate_offset_through_path`. -/
theorem C2_chain_sum_and_quadrature :
    (∀ (sensor_id : Int) (start_entry : TreeEntry) (tree : TreeC)
        (q : ℚ × ℝ × List (TreeEntry × Int)),
        q ∈ find_all_paths_to_reference sensor_id start_entry tree →
        ∃ (raised_r1 : Int) (o1 er1 : ℚ) (entry_r2 : TreeEntry) (raised_r2 : Int)
          (o2 er2 : ℚ) (entry_r3 : TreeEntry) (o3 er3 : ℚ),
          start_entry.get_offset_to_raised sensor_id raised_r1 = some (o1, er1) ∧
          entry_r2.get_offset_to_raised raised_r1 raised_r2 = some (o2, er2) ∧
          step3Lookup entry_r3 raised_r2 = some (o3, er3) ∧
          q.2.2 = [(start_entry, raised_r1), (entry_r2, raised_r2),
                   (entry_r3, entry_r3.calibset.reference_id)] ∧
          q.1 = o1 + o2 + o3 ∧
          q.2.1 = Real.sqrt (((er1 : ℝ)) ^ 2 + ((er2 : ℝ)) ^ 2 + ((er3 : ℝ)) ^ 2) ∧
          q.2.1 = propagate_error [some er1, some er2, some er3]) ∧
    (∀ (tp : TreePy) (sensor_from sensor_to : Int) (path : List ℚ) (o : ℚ) (e : ℝ),
        2 ≤ path.length →
        calculate_offset_through_path tp sensor_from sensor_to path = some (o, e) →
        ∃ hops : List (ℚ × ℚ), ChainHops tp sensor_to sensor_from path hops ∧
          o = (hops.map Prod.fst).sum ∧
          e = Real.sqrt (((hops.map (fun h => h.2 ^ 2)).sum : ℚ))) := by
  constructor
  · intro sensor_id start_entry tree q hq
    unfold find_all_paths_to_reference at hq
    rw [List.mem_map] at hq
    obtain ⟨p, hp, rfl⟩ := hq
    obtain ⟨r1, o1, er1, en2, r2, o2, er2, en3, o3, er3,
      _, h1, _, _, _, h2, _, _, h3, hpe⟩ := mem_findAllPathsSq hp
    refine ⟨r1, o1, er1, en2, r2, o2, er2, en3, o3, er3, h1, h2, h3, ?_, ?_, ?_, ?_⟩
    · rw [hpe]
    · rw [hpe]
    · rw [hpe]
      show Real.sqrt ((o1 + o2 + o3, er1 ^ 2 + er2 ^ 2 + er3 ^ 2,
        [(start_entry, r1), (en2, r2), (en3, en3.calibset.reference_id)]).2.1 : ℝ) = _
      push_cast
      ring_nf
    · rw [hpe]
      show Real.sqrt ((o1 + o2 + o3, er1 ^ 2 + er2 ^ 2 + er3 ^ 2,
        [(start_entry, r1), (en2, r2), (en3, en3.calibset.reference_id)]).2.1 : ℝ) = _
      unfold propagate_error propagateErrorSq
      simp
      rw [add_assoc]
  · intro tp sensor_from sensor_to path o e hlen h
    unfold calculate_offset_through_path at h
    rw [if_neg (by omega)] at h
    cases hc : pathChainSq tp sensor_to sensor_from path with
    | none => rw [hc] at h; simp at h
    | some p =>
      obtain ⟨o2, q2⟩ := p
      rw [hc] at h
      simp only [Option.map_some', Option.some.injEq, Prod.mk.injEq] at h
      obtain ⟨hops, hch, ho, hq⟩ := pathChainSq_spec tp sensor_to path sensor_from o2 q2 hc
      exact ⟨hops, hch, h.1 ▸ ho, by rw [← h.2, hq]⟩

/-- Concrete evaluation of the sample tree's path enumeration, shared
by several witnesses: sensor 10 has exactly one path with offset
`1 + 2 + 5 = 8` and squared error `(1/10)² + (1/10)² + 0² = 1/50`. -/
theorem findAllPathsSq_tree1 :
    findAllPathsSq 10 e1 tree1 = [(8, 1/50, [(e1, 20), (e2, 21), (e3, 30)])] := by
  norm_num [findAllPathsSq, e1, e2, e3, tree1, TreeC.get_root, TreeC.get_entries_by_round,
    TreeEntry.is_sensor_discarded, TreeEntry.get_raised_for_sensor,
    TreeEntry.get_offset_to_raised, step3Lookup, dictGetD, assocLookup, List.filter]

/-- C7 counterexample: in `Tree._explore_all_paths`, when the chained
round-1 bridge (sensor 20) is itself the raised sensor of the round-2
set bridging into round 3, the enumerated path's second hop chooses
sensor 20 as bridge *for sensor 20 itself*, contributing the trivial
zero-offset self hop `(offset_2, error_2) = (0, 0)` — so the claim that
no enumerated path ever contains a zero-offset self hop is false as
stated. -/
theorem C7_counterexample :
    exploreAllPathsSq tp7 10 1 [20] 30 3 =
      [(3, 1/50, ⟨20, 2, 20, 1, 1/10, 0, 0, 2, 1/10⟩)] ∧
    (PathInfo.mk 20 2 20 1 (1/10) 0 0 2 (1/10)).bridge_r2_r3 =
      (PathInfo.mk 20 2 20 1 (1/10) 0 0 2 (1/10)).raised_r1 ∧
    (PathInfo.mk 20 2 20 1 (1/10) 0 0 2 (1/10)).offset_2 = 0 ∧
    (PathInfo.mk 20 2 20 1 (1/10) 0 0 2 (1/10)).error_2 = 0 := by
  refine ⟨?_, rfl, rfl, rfl⟩
  norm_num [exploreAllPathsSq, tp7, sets_by_round, cfgOf, get_offset_within_set, assocLookup,
    List.filter, List.find?]

/-- C7 (amended): in the engine's own enumerator
`find_all_paths_to_reference`, the bridge chosen at each of the two
bridge-choice hops always differs from the sensor being chained (via
`get_raised_for_sensor`); only `Tree._explore_all_paths` (the
multi-path analysis in `tree.py`) admits a zero-offset self hop at its
round-2→3 bridge. -/
theorem C7_engine_paths_never_self_bridge :
    ∀ (sensor_id : Int) (start_entry : TreeEntry) (tree : TreeC)
      (p : ℚ × ℚ × List (TreeEntry × Int)),
      p ∈ findAllPathsSq sensor_id start_entry tree →
      ∃ (raised_r1 : Int) (entry_r2 : TreeEntry) (raised_r2 : Int) (entry_r3 : TreeEntry),
        p.2.2 = [(start_entry, raised_r1), (entry_r2, raised_r2),
                 (entry_r3, entry_r3.calibset.reference_id)] ∧
        raised_r1 ≠ sensor_id ∧ raised_r2 ≠ raised_r1 := by
  intro sensor_id start_entry tree p hp
  obtain ⟨r1, o1, er1, en2, r2, o2, er2, en3, o3, er3,
    hr1, _, _, _, hr2, _, _, _, _, hpe⟩ := mem_findAllPathsSq hp
  exact ⟨r1, en2, r2, en3, by rw [hpe], mem_get_raised_for_sensor_ne hr1,
    mem_get_raised_for_sensor_ne hr2⟩

/-- Witness for the amended C7 at the sample tree. -/
theorem C7_engine_paths_witness :
    ((8 : ℚ), (1 : ℚ)/50, [(e1, 20), (e2, 21), (e3, 30)]) ∈ findAllPathsSq 10 e1 tree1 ∧
    (∃ (raised_r1 : Int) (entry_r2 : TreeEntry) (raised_r2 : Int) (entry_r3 : TreeEntry),
      ((8 : ℚ), (1 : ℚ)/50, [(e1, 20), (e2, 21), (e3, 30)]).2.2 =
        [(e1, raised_r1), (entry_r2, raised_r2), (entry_r3, entry_r3.calibset.reference_id)] ∧
      raised_r1 ≠ 10 ∧ raised_r2 ≠ raised_r1) := by
  have hmem : ((8 : ℚ), (1 : ℚ)/50, [(e1, 20), (e2, 21), (e3, 30)]) ∈
      findAllPathsSq 10 e1 tree1 := by
    rw [findAllPathsSq_tree1]
    simp
  exact ⟨hmem, C7_engine_paths_never_self_bridge 10 e1 tree1 _ hmem⟩

/-- Witness for C2: the first component applied to the sample tree's
single enumerated path, with the membership hypothesis discharged by
evaluating the enumerator. -/
theorem C2_chain_witness :
    ((8 : ℚ), Real.sqrt ((1 : ℚ)/50 : ℚ), [(e1, 20), (e2, 21), (e3, 30)]) ∈
      find_all_paths_to_reference 10 e1 tree1 ∧
    (∃ (raised_r1 : Int) (o1 er1 : ℚ) (entry_r2 : TreeEntry) (raised_r2 : Int)
        (o2 er2 : ℚ) (entry_r3 : TreeEntry) (o3 er3 : ℚ),
        e1.get_offset_to_raised 10 raised_r1 = some (o1, er1) ∧
        entry_r2.get_offset_to_raised raised_r1 raised_r2 = some (o2, er2) ∧
        step3Lookup entry_r3 raised_r2 = some (o3, er3) ∧
        ((8 : ℚ), Real.sqrt ((1 : ℚ)/50 : ℚ), [(e1, 20), (e2, 21), (e3, 30)]).2.2 =
          [(e1, raised_r1), (entry_r2, raised_r2),
           (entry_r3, entry_r3.calibset.reference_id)] ∧
        ((8 : ℚ), Real.sqrt ((1 : ℚ)/50 : ℚ), [(e1, 20), (e2, 21), (e3, 30)]).1 =
          o1 + o2 + o3 ∧
        ((8 : ℚ), Real.sqrt ((1 : ℚ)/50 : ℚ), [(e1, 20), (e2, 21), (e3, 30)]).2.1 =
          Real.sqrt (((er1 : ℝ)) ^ 2 + ((er2 : ℝ)) ^ 2 + ((er3 : ℝ)) ^ 2) ∧
        ((8 : ℚ), Real.sqrt ((1 : ℚ)/50 : ℚ), [(e1, 20), (e2, 21), (e3, 30)]).2.1 =
          propagate_error [some er1, some er2, some er3]) ∧
    (∃ hops : List (ℚ × ℚ), ChainHops tp7 30 10 [1, 3] hops ∧
      (3 : ℚ) = (hops.map Prod.fst).sum ∧
      Real.sqrt ((1/50 : ℚ) : ℝ) =
        Real.sqrt (((hops.map (fun h => h.2 ^ 2)).sum : ℚ))) := by
  have hmem : ((8 : ℚ), Real.sqrt ((1 : ℚ)/50 : ℚ), [(e1, 20), (e2, 21), (e3, 30)]) ∈
      find_all_paths_to_reference 10 e1 tree1 := by
    unfold find_all_paths_to_reference
    rw [findAllPathsSq_tree1]
    simp
  refine ⟨hmem, C2_chain_sum_and_quadrature.1 10 e1 tree1 _ hmem, ?_⟩
  exact C2_chain_sum_and_quadrature.2 tp7 10 30 [1, 3] 3 (Real.sqrt ((1/50 : ℚ) : ℝ))
    (by norm_num)
    (by norm_num [calculate_offset_through_path, pathChainSq, bridgeSensors,
      get_raised_sensors, cfgOf, tp7, get_offset_within_set, assocLookup, List.filter])

/-- C3 counterexample: in the sample tree the final-hop error of bridge
21 is undefined (`std_offsets` has no entry for 21 while
`mean_offsets` does), yet the path survives — `std_offsets.get(21, 0.0)`
substitutes `0.0` and `find_all_paths_to_reference` returns the path
with squared error `1/50 = (1/10)² + (1/10)² + 0²` instead of rejecting
it. -/
theorem C3_counterexample :
    assocLookup 21 e3.calibset.std_offsets = none ∧
    assocLookup 21 e3.calibset.mean_offsets = some 5 ∧
    (21 : Int) ≠ e3.calibset.reference_id ∧
    step3Lookup e3 21 = some (5, 0) ∧
    findAllPathsSq 10 e1 tree1 = [(8, 1/50, [(e1, 20), (e2, 21), (e3, 30)])] := by
  refine ⟨rfl, ?_, by decide, ?_, findAllPathsSq_tree1⟩
  · norm_num [e3, assocLookup]
  · norm_num [step3Lookup, e3, dictGetD, assocLookup]

/-- C3 (amended): an undefined hop *offset* does reject the whole path
(every surviving path has all three hop offset lookups defined), but an
undefined hop *error* alone does not: the final-hop error falls back to
`std_offsets.get(bridge, 0.0)`, and `propagate_error` silently skips
`None` errors instead of rejecting. -/
theorem C3_undefined_error_policy :
    (∀ errors : List (Option ℚ),
        propagate_error errors = propagate_error ((errors.filterMap id).map some)) ∧
    (∀ (entry_r3 : TreeEntry) (raised_r2 : Int) (o : ℚ),
        raised_r2 ≠ entry_r3.calibset.reference_id →
        assocLookup raised_r2 entry_r3.calibset.mean_offsets = some o →
        assocLookup raised_r2 entry_r3.calibset.std_offsets = none →
        step3Lookup entry_r3 raised_r2 = some (o, 0)) ∧
    (∀ (sensor_id : Int) (start_entry : TreeEntry) (tree : TreeC)
        (p : ℚ × ℚ × List (TreeEntry × Int)),
        p ∈ findAllPathsSq sensor_id start_entry tree →
        ∃ (raised_r1 : Int) (o1 er1 : ℚ) (entry_r2 : TreeEntry) (raised_r2 : Int)
          (o2 er2 : ℚ) (entry_r3 : TreeEntry) (o3 er3 : ℚ),
          p.2.2 = [(start_entry, raised_r1), (entry_r2, raised_r2),
                   (entry_r3, entry_r3.calibset.reference_id)] ∧
          start_entry.get_offset_to_raised sensor_id raised_r1 = some (o1, er1) ∧
          entry_r2.get_offset_to_raised raised_r1 raised_r2 = some (o2, er2) ∧
          step3Lookup entry_r3 raised_r2 = some (o3, er3)) := by
  refine ⟨?_, ?_, ?_⟩
  · intro errors
    unfold propagate_error propagateErrorSq
    congr 1
    simp [List.filterMap_map]
  · intro entry_r3 raised_r2 o hne hmean hstd
    unfold step3Lookup
    rw [if_neg hne, hmean, dictGetD, hstd]
    rfl
  · intro sensor_id start_entry tree p hp
    obtain ⟨r1, o1, er1, en2, r2, o2, er2, en3, o3, er3,
      _, h1, _, _, _, h2, _, _, h3, hpe⟩ := mem_findAllPathsSq hp
    exact ⟨r1, o1, er1, en2, r2, o2, er2, en3, o3, er3, by rw [hpe], h1, h2, h3⟩

/-- Witness for the amended C3: the zero-substitution clause applied at
the sample round-3 entry. -/
theorem C3_undefined_error_policy_witness :
    ((21 : Int) ≠ e3.calibset.reference_id ∧
      assocLookup 21 e3.calibset.mean_offsets = some 5 ∧
      assocLookup 21 e3.calibset.std_offsets = none) ∧
    step3Lookup e3 21 = some (5, 0) := by
  refine ⟨⟨by decide, by norm_num [e3, assocLookup], rfl⟩, ?_⟩
  exact C3_undefined_error_policy.2.1 e3 21 5 (by decide) (by norm_num [e3, assocLookup]) rfl

/-- C4 counterexample: `safe_get` returns `0.0` for an entry absent in
both orientations, and `compute_offset_between`'s same-set branch
returns `(0.0, 0.0)` for sensors 7 and 8 of `net4` even though the
matrix holds no (7,8) or (8,7) cell — missing intra-set entries are
treated as the value zero, so the claim is false as stated. -/
theorem C4_counterexample :
    nt4.loc 3 4 = none ∧ nt4.loc 4 3 = none ∧ safe_get (some nt4) 3 4 = 0 ∧
    (⟨[7, 8], [9], fun _ _ => 1⟩ : NetTable).loc 7 8 = none ∧
    (⟨[7, 8], [9], fun _ _ => 1⟩ : NetTable).loc 8 7 = none ∧
    compute_offset_between net4 7 8 = Except.ok (0, 0) := by
  refine ⟨?_, ?_, ?_, ?_, ?_, ?_⟩
  · norm_num [NetTable.loc, nt4]
  · norm_num [NetTable.loc, nt4]
  · norm_num [safe_get, NetTable.loc, nt4]
  · norm_num [NetTable.loc]
  · norm_num [NetTable.loc]
  · norm_num [compute_offset_between, find_sensor_set, net4, assocLookup, NetTable.loc,
      List.find?]

/-- C4 (amended): the `tree.py` lookup `get_offset_within_set` never
manufactures a value — a defined result arises only from present,
non-NaN cells of both matrices, so absence propagates as `None` and the
path branch dies; the `CalibrationNetwork` fallbacks (`safe_get`, and
the same-set branch of `compute_offset_between`) instead substitute
`0.0` with a warning. -/
theorem C4_lookup_absence_policy :
    (∀ (tp : TreePy) (set_id : ℚ) (sf st : Int) (o e : ℚ),
        get_offset_within_set tp set_id sf st = some (o, e) →
        ∃ set_obj constants errors,
          assocLookup set_id tp.sets = some set_obj ∧
          set_obj.calibration_constants = some constants ∧
          set_obj.calibration_errors = some errors ∧
          assocLookup (sf, st) constants = some (some o) ∧
          assocLookup (sf, st) errors = some (some e)) ∧
    (∀ (t : NetTable) (i j : Int),
        t.loc i j = none → t.loc j i = none → safe_get (some t) i j = 0) := by
  constructor
  · intro tp set_id sf st o e h
    unfold get_offset_within_set at h
    cases hs : assocLookup set_id tp.sets with
    | none => simp only [hs] at h; exact Option.noConfusion h
    | some set_obj =>
      simp only [hs] at h
      cases hc : set_obj.calibration_constants with
      | none => simp only [hc] at h; exact Option.noConfusion h
      | some constants =>
        cases he : set_obj.calibration_errors with
        | none => simp only [hc, he] at h; exact Option.noConfusion h
        | some errors =>
          simp only [hc, he] at h
          cases hlc : assocLookup (sf, st) constants with
          | none => simp only [hlc] at h; exact Option.noConfusion h
          | some oc =>
            cases hle : assocLookup (sf, st) errors with
            | none =>
              simp only [hlc, hle] at h
              cases oc <;> exact Option.noConfusion h
            | some oe =>
              simp only [hlc, hle] at h
              cases oc with
              | none => exact Option.noConfusion h
              | some ov =>
                cases oe with
                | none => exact Option.noConfusion h
                | some ev =>
                  simp only [Option.some.injEq, Prod.mk.injEq] at h
                  exact ⟨set_obj, constants, errors, rfl, hc, he,
                    by rw [hlc, h.1], by rw [hle, h.2]⟩
  · intro t i j h1 h2
    unfold safe_get
    simp only [h1, h2]

/-- Witness for the amended C4: a defined lookup of the sample state
inverted to its table cells, and `safe_get`'s zero fallback at a
concrete missing entry. -/
theorem C4_lookup_absence_policy_witness :
    get_offset_within_set tp7 1 10 20 = some (1, 1/10) ∧
    (∃ set_obj constants errors,
      assocLookup (1 : ℚ) tp7.sets = some set_obj ∧
      set_obj.calibration_constants = some constants ∧
      set_obj.calibration_errors = some errors ∧
      assocLookup ((10 : Int), (20 : Int)) constants = some (some 1) ∧
      assocLookup ((10 : Int), (20 : Int)) errors = some (some (1/10))) ∧
    nt4.loc 3 4 = none ∧ nt4.loc 4 3 = none ∧ safe_get (some nt4) 3 4 = 0 := by
  have hlk : get_offset_within_set tp7 1 10 20 = some (1, 1/10) := by
    norm_num [get_offset_within_set, tp7, assocLookup]
  have h34 : nt4.loc 3 4 = none := by norm_num [NetTable.loc, nt4]
  have h43 : nt4.loc 4 3 = none := by norm_num [NetTable.loc, nt4]
  exact ⟨hlk, C4_lookup_absence_policy.1 tp7 1 10 20 1 (1/10) hlk, h34, h43,
    C4_lookup_absence_policy.2 nt4 3 4 h34 h43⟩

/-- C10: `compute_offset_between(x, x)` is `(0.0, 0.0)` for every
network state and every sensor id — the identical-id check
short-circuits before any set lookup, so no sensor-not-found error can
be raised. -/
theorem C10_identical_sensor_zero_offset :
    ∀ (net : Network) (sensor_id : Int),
      compute_offset_between net sensor_id sensor_id = Except.ok (0, 0) := by
  intro net sensor_id
  unfold compute_offset_between
  rw [if_pos rfl]

theorem weighted_average_paths_fst_isSome {α : Type} (paths : List (ℚ × ℝ × α))
    (h : paths ≠ []) : ∃ o oe, weighted_average_paths paths = (some o, oe) := by
  match paths with
  | [] => exact absurd rfl h
  | [p] => exact ⟨_, _, rfl⟩
  | a :: b :: l => exact ⟨_, _, rfl⟩

theorem sensorRows_eq (tree : TreeC) (entry : TreeEntry) (sensor_id : Int) :
    ∃ r : Row, sensorRows tree entry sensor_id = [r] ∧
      r.sensor = sensor_id ∧ r.set_id = entry.set_number ∧ r.round = entry.round := by
  unfold sensorRows
  by_cases hd : entry.is_sensor_discarded sensor_id
  · rw [if_pos hd]
    exact ⟨_, rfl, rfl, rfl, rfl⟩
  · rw [if_neg hd]
    by_cases hp : (find_all_paths_to_reference sensor_id entry tree).isEmpty
    · simp only [hp, if_true]
      exact ⟨_, rfl, rfl, rfl, rfl⟩
    · simp only [hp, if_false]
      obtain ⟨o, oe, hw⟩ := weighted_average_paths_fst_isSome
        (find_all_paths_to_reference sensor_id entry tree)
        (fun hnil => hp (by rw [hnil]; rfl))
      rw [hw]
      exact ⟨_, rfl, rfl, rfl, rfl⟩

theorem sensorRows_length (tree : TreeC) (entry : TreeEntry) (sensor_id : Int) :
    (sensorRows tree entry sensor_id).length = 1 := by
  obtain ⟨r, hr, -, -, -⟩ := sensorRows_eq tree entry sensor_id
  rw [hr]
  rfl

theorem sensorRow_mem_calibrate_tree {tree : TreeC} {root : TreeEntry}
    (hroot : tree.get_root = some root) (refOpt : Option Int) {entry : TreeEntry}
    (he : entry ∈ tree.get_entries_by_round 1) {s : Int} (hs : s ∈ entry.sensors)
    {r : Row} (hr : r ∈ sensorRows tree entry s) :
    r ∈ calibrate_tree tree refOpt := by
  unfold calibrate_tree
  simp only [hroot]
  rw [List.mem_append]
  left
  rw [List.mem_flatMap]
  exact ⟨entry, by rw [List.mem_mergeSort]; exact he, List.mem_flatMap.mpr ⟨s, hs, hr⟩⟩

theorem calibrate_tree_length {tree : TreeC} {root : TreeEntry}
    (hroot : tree.get_root = some root) (refOpt : Option Int) :
    (calibrate_tree tree refOpt).length =
      ((tree.get_entries_by_round 1).map (fun e => e.sensors.length)).sum + 1 := by
  unfold calibrate_tree
  simp only [hroot]
  rw [List.length_append]
  have hinner : ∀ entry : TreeEntry,
      (entry.sensors.flatMap (fun s => sensorRows tree entry s)).length =
        entry.sensors.length := by
    intro entry
    rw [List.length_flatMap]
    simp only [Function.comp_def]
    rw [List.map_congr_left (fun s _ => sensorRows_length tree entry s)]
    simp
  rw [List.length_flatMap]
  simp only [Function.comp_def]
  have hperm : ((tree.get_entries_by_round 1).mergeSort
      (fun a b => decide (a.set_number ≤ b.set_number))).Perm
      (tree.get_entries_by_round 1) := List.mergeSort_perm _ _
  rw [(hperm.map (fun entry =>
    (entry.sensors.flatMap (fun s => sensorRows tree entry s)).length)).sum_eq]
  rw [List.map_congr_left (fun entry _ => hinner entry)]
  rfl


/-- C5: with a resolved root, a `calibrate_tree` run always completes
and its output covers every sensor of every processed (round-1) set
with a row carrying that sensor, its set and round (and one of the four
explicit statuses, by the `Row` type); the total row count is exactly
one row per (set, sensor) pair plus the reference row, so no sensor is
silently omitted — in particular the `if offset is not None` guard of
the source never drops a row. -/
theorem C5_full_result_table :
    ∀ (tree : TreeC) (root : TreeEntry) (refOpt : Option Int),
      tree.get_root = some root →
      (∀ entry ∈ tree.get_entries_by_round 1, ∀ s ∈ entry.sensors,
        ∃ r ∈ calibrate_tree tree refOpt,
          r.sensor = s ∧ r.set_id = entry.set_number ∧ r.round = entry.round) ∧
      (calibrate_tree tree refOpt).length =
        ((tree.get_entries_by_round 1).map (fun e => e.sensors.length)).sum + 1 := by
  intro tree root refOpt hroot
  constructor
  · intro entry he s hs
    obtain ⟨r, hr, hsen, hset, hrnd⟩ := sensorRows_eq tree entry s
    refine ⟨r, sensorRow_mem_calibrate_tree hroot refOpt he hs ?_, hsen, hset, hrnd⟩
    rw [hr]
    exact List.mem_singleton.mpr rfl
  · exact calibrate_tree_length hroot refOpt

/-- Witness for C5 at the sample tree: sensor 10 of the round-1 entry
has a row, and the row count is exactly `Σ sensors + 1`. -/
theorem C5_full_result_table_witness :
    (∃ r ∈ calibrate_tree tree1 none,
      r.sensor = 10 ∧ r.set_id = e1.set_number ∧ r.round = e1.round) ∧
    (calibrate_tree tree1 none).length =
      ((tree1.get_entries_by_round 1).map (fun e => e.sensors.length)).sum + 1 := by
  have h := C5_full_result_table tree1 e3 none rfl
  exact ⟨h.1 e1 (by norm_num [tree1, TreeC.get_entries_by_round, e1, e2, e3, List.filter])
    10 (by norm_num [e1]), h.2⟩

/-- C6: a discarded sensor's path enumeration returns the empty list
immediately, and its result row in `calibrate_tree` is always the
`Descartado` row with undefined (NaN, modelled `none`) constant and
error, regardless of any otherwise-valid paths. -/
theorem C6_discard_dominance :
    ∀ (tree : TreeC) (entry : TreeEntry) (s : Int),
      entry.is_sensor_discarded s = true →
      findAllPathsSq s entry tree = [] ∧
      find_all_paths_to_reference s entry tree = [] ∧
      (∀ (root : TreeEntry) (refOpt : Option Int), tree.get_root = some root →
        entry ∈ tree.get_entries_by_round 1 → s ∈ entry.sensors →
        (⟨s, entry.set_number, entry.round, none, none, 0, Status.Descartado⟩ : Row) ∈
          calibrate_tree tree refOpt) := by
  intro tree entry s hdisc
  have hpaths : findAllPathsSq s entry tree = [] := by
    unfold findAllPathsSq
    cases tree.get_root with
    | none => rfl
    | some root => simp [hdisc]
  refine ⟨hpaths, ?_, ?_⟩
  · unfold find_all_paths_to_reference
    rw [hpaths]
    rfl
  · intro root refOpt hroot he hs
    refine sensorRow_mem_calibrate_tree hroot refOpt he hs ?_
    unfold sensorRows
    rw [if_pos hdisc]
    exact List.mem_singleton.mpr rfl

/-- Witness for C6: sensor 11 of the sample tree is discarded; its path
list is empty and its `Descartado` row is in the output. -/
theorem C6_discard_dominance_witness :
    e1.is_sensor_discarded 11 = true ∧
    findAllPathsSq 11 e1 tree1 = [] ∧
    find_all_paths_to_reference 11 e1 tree1 = [] ∧
    (⟨11, e1.set_number, e1.round, none, none, 0, Status.Descartado⟩ : Row) ∈
      calibrate_tree tree1 none := by
  have hdisc : e1.is_sensor_discarded 11 = true := by
    norm_num [TreeEntry.is_sensor_discarded, e1]
  have h := C6_discard_dominance tree1 e1 11 hdisc
  exact ⟨hdisc, h.1, h.2.1, h.2.2 e3 none rfl
    (by norm_num [tree1, TreeC.get_entries_by_round, e1, e2, e3, List.filter])
    (by norm_num [e1])⟩

/-- C8: for every tree with a resolved root, the output of
`calibrate_tree` contains the absolute-reference row
`(constant = 0, error = 0, status = Referencia)` for the designated
reference sensor — appended unconditionally, never produced by path
computation. -/
theorem C8_reference_row :
    ∀ (tree : TreeC) (root : TreeEntry) (refOpt : Option Int),
      tree.get_root = some root →
      (⟨refOpt.getD root.calibset.reference_id, root.set_number, root.round,
        some 0, some 0, 0, Status.Referencia⟩ : Row) ∈ calibrate_tree tree refOpt := by
  intro tree root refOpt hroot
  unfold calibrate_tree
  simp only [hroot]
  rw [List.mem_append]
  right
  exact List.mem_singleton.mpr rfl

/-- Witness for C8 at the sample tree. -/
theorem C8_reference_row_witness :
    (⟨(none : Option Int).getD e3.calibset.reference_id, e3.set_number, e3.round,
      some 0, some 0, 0, Status.Referencia⟩ : Row) ∈ calibrate_tree tree1 none :=
  C8_reference_row tree1 e3 none rfl

end RTDCalib
